import Mathlib

/-!
Verification of the message-dispatch loop of a small `iced` text editor
(`src/main.rs`). The editor state, message type and the `Editor::update`
and status-bar portion of `Editor::view` are embedded shallowly below.

The text-buffer widget (`iced::widget::text_editor::Content`) is an
external library component; per the application's design it is an opaque
handle holding the document text and a cursor position. It is modelled
here as a record of the text together with the 0-indexed cursor line and
column: `Content::new()` is the empty buffer, `Content::with_text(t)`
holds `t`, and `Content::text()` returns the held text. An editor action
(`text_editor::Action`) is modelled by its `is_edit` flag together with
its effect on the buffer, both left fully abstract.
-/

/-- Model of `iced::widget::text_editor::Content`: the document text plus
the 0-indexed cursor position reported by `cursor_position()`. -/
structure Content where
  text : String
  cursorLine : Nat
  cursorCol : Nat
deriving Repr, DecidableEq

/-- `text_editor::Content::new()`: an empty buffer. -/
def Content.emptyNew : Content := ⟨"", 0, 0⟩

/-- `text_editor::Content::with_text(t)`: a buffer holding exactly `t`. -/
def Content.withText (t : String) : Content := ⟨t, 0, 0⟩

/-- Model of `iced::widget::text_editor::Action`: whether the action is an
edit (as reported by `Action::is_edit()`, false for pure cursor moves)
and its effect on the buffer (`Content::perform`). -/
structure EditAction where
  is_edit : Bool
  perform : Content → Content

/-- `enum Error { FileDialogClosed, Io(io::ErrorKind) }` from `main.rs`.
The OS error kind is represented by a numeric code. -/
inductive Error where
  | fileDialogClosed : Error
  | ioError (kind : Nat) : Error
deriving Repr, DecidableEq

/-- `enum Message` from `main.rs`. `Result` becomes `Except`. -/
inductive Message where
  | edit (a : EditAction) : Message
  | newFile : Message
  | openFile : Message
  | fileOpen (r : Except Error (String × String)) : Message
  | save : Message
  | fileSaved (r : Except Error String) : Message
  | themeSelected (t : Nat) : Message

/-- The follow-up asynchronous work returned by `Editor::update`
(`iced::Task`): nothing, `pick_afile()` piped to `FileOpen`, or
`file_saved(path, text)` piped to `FileSaved`. -/
inductive EditorTask where
  | noTask : EditorTask
  | pickFileThenLoad : EditorTask
  | saveFile (path : Option String) (text : String) : EditorTask
deriving Repr, DecidableEq

/-- `struct Editor` from `main.rs`: buffer handle, optional path, optional
last error, highlighter theme (represented numerically) and dirty flag. -/
structure Editor where
  content : Content
  path : Option String
  error : Option Error
  theme : Nat
  is_dirty : Bool
deriving Repr, DecidableEq

/-- `Editor::update` from `main.rs`, returning the new state together
with the follow-up task. Each arm mirrors one `match` arm of the source. -/
def Editor.update (e : Editor) (m : Message) : Editor × EditorTask :=
  match m with
  | .edit a =>
      ({ e with is_dirty := e.is_dirty || a.is_edit,
                content := a.perform e.content }, .noTask)
  | .newFile =>
      ({ e with path := none, content := Content.emptyNew, error := none },
       .noTask)
  | .openFile => (e, .pickFileThenLoad)
  | .save => (e, .saveFile e.path e.content.text)
  | .fileSaved (.ok p) =>
      ({ e with path := some p, is_dirty := false }, .noTask)
  | .fileSaved (.error err) => ({ e with error := some err }, .noTask)
  | .fileOpen (.ok (p, c)) =>
      ({ e with path := some p, is_dirty := false,
                content := Content.withText c }, .noTask)
  | .fileOpen (.error err) => ({ e with error := some err }, .noTask)
  | .themeSelected t => ({ e with theme := t }, .noTask)

/-- Display text of an `io::ErrorKind` (`error.to_string()` in the view). -/
def ioErrorMessage (kind : Nat) : String := "io error " ++ toString kind

/-- The two text fragments of the status bar built in `Editor::view`. -/
structure StatusBar where
  status : String
  position : String
deriving Repr, DecidableEq

/-- The status bar of `Editor::view`: the error text when the last error
is an I/O error (`if let Some(Error::Io(error)) = self.error`), otherwise
the path when set, else the label "new file"; plus the cursor position
rendered as `(line + 1):(column + 1)` from the 0-indexed position. -/
def Editor.statusBar (e : Editor) : StatusBar :=
  { status :=
      match e.error with
      | some (.ioError k) => ioErrorMessage k
      | _ =>
          match e.path with
          | some p => p
          | none => "new file"
    position :=
      toString (e.content.cursorLine + 1) ++ ":" ++
        toString (e.content.cursorCol + 1) }

/-- A sample state used to instantiate universally quantified results. -/
def sampleEditor : Editor :=
  { content := ⟨"hello", 0, 3⟩
    path := some "a.rs"
    error := none
    theme := 0
    is_dirty := false }

/-- A concrete edit action: append an "x" to the buffer text. -/
def appendX : EditAction :=
  { is_edit := true
    perform := fun c => { c with text := c.text ++ "x" } }

/-- A concrete pure cursor move: advance the cursor column by one. -/
def moveRight : EditAction :=
  { is_edit := false
    perform := fun c => { c with cursorCol := c.cursorCol + 1 } }

/-- A state carrying a stale I/O error from a previously failed operation. -/
def staleErrorEditor : Editor := { sampleEditor with error := some (Error.ioError 5) }

/-- A state whose last error is a cancelled dialog. -/
def cancelledDialogEditor : Editor :=
  { sampleEditor with error := some Error.fileDialogClosed }

/-- A state whose last error is an I/O failure, used for view instantiation. -/
def ioErrorEditor : Editor := { sampleEditor with error := some (Error.ioError 2) }

/-- Claim C1: dispatching an `Edit` action sets the dirty flag when the
action is an edit (whatever its prior value), leaves it unchanged on a
pure cursor move, applies the action to the buffer, and modifies no other
state field (path, error and theme are untouched). -/
theorem edit_dispatch_spec (e : Editor) (a : EditAction) :
    (a.is_edit = true → (e.update (.edit a)).1.is_dirty = true) ∧
    (a.is_edit = false → (e.update (.edit a)).1.is_dirty = e.is_dirty) ∧
    (e.update (.edit a)).1.content = a.perform e.content ∧
    (e.update (.edit a)).1.path = e.path ∧
    (e.update (.edit a)).1.error = e.error ∧
    (e.update (.edit a)).1.theme = e.theme := by
  refine ⟨?_, ?_, rfl, rfl, rfl, rfl⟩ <;> intro h <;> simp [Editor.update, h]

/-- Witness for C1: a concrete edit marks a clean state dirty, and a
concrete cursor move leaves the clean flag as it was. -/
theorem edit_dispatch_spec_witness :
    (sampleEditor.update (.edit appendX)).1.is_dirty = true ∧
    (sampleEditor.update (.edit moveRight)).1.is_dirty = sampleEditor.is_dirty :=
  ⟨(edit_dispatch_spec sampleEditor appendX).1 rfl,
   (edit_dispatch_spec sampleEditor moveRight).2.1 rfl⟩

/-- Claim C2: a successful `FileOpen(Ok(path, text))` sets the path,
clears the dirty flag and replaces the buffer contents with exactly the
loaded text. -/
theorem fileOpen_ok_spec (e : Editor) (p t : String) :
    (e.update (.fileOpen (.ok (p, t)))).1.path = some p ∧
    (e.update (.fileOpen (.ok (p, t)))).1.is_dirty = false ∧
    (e.update (.fileOpen (.ok (p, t)))).1.content = Content.withText t ∧
    (e.update (.fileOpen (.ok (p, t)))).1.content.text = t :=
  ⟨rfl, rfl, rfl, rfl⟩

/-- Claim C3: a failed `FileOpen(Err(e))` or `FileSaved(Err(e))` stores
the error and leaves path, buffer and dirty flag unchanged, for either
error kind. -/
theorem file_error_spec (e : Editor) (err : Error) :
    ((e.update (.fileOpen (.error err))).1.error = some err ∧
     (e.update (.fileOpen (.error err))).1.path = e.path ∧
     (e.update (.fileOpen (.error err))).1.content = e.content ∧
     (e.update (.fileOpen (.error err))).1.is_dirty = e.is_dirty) ∧
    ((e.update (.fileSaved (.error err))).1.error = some err ∧
     (e.update (.fileSaved (.error err))).1.path = e.path ∧
     (e.update (.fileSaved (.error err))).1.content = e.content ∧
     (e.update (.fileSaved (.error err))).1.is_dirty = e.is_dirty) :=
  ⟨⟨rfl, rfl, rfl, rfl⟩, ⟨rfl, rfl, rfl, rfl⟩⟩

/-- Counterexample to claim C4: in a state holding a stale I/O error, a
successful `FileSaved(Ok)` and a successful `FileOpen(Ok)` both leave the
old error in place — neither arm of `Editor::update` writes `self.error`,
so the error is not cleared or overwritten by a successful operation. -/
theorem success_clears_error_counterexample :
    staleErrorEditor.error = some (Error.ioError 5) ∧
    (staleErrorEditor.update (.fileSaved (.ok "b.txt"))).1.error
      = some (Error.ioError 5) ∧
    (staleErrorEditor.update (.fileOpen (.ok ("b.txt", "hi")))).1.error
      = some (Error.ioError 5) :=
  ⟨rfl, rfl, rfl⟩

/-- Claim C4 as amended: `New` clears the last error, while a successful
`FileOpen(Ok)` or `FileSaved(Ok)` leaves the last error unchanged; an
error is only replaced when a later operation fails with a new error. -/
theorem error_lifetime_spec (e : Editor) (p t : String) :
    (e.update .newFile).1.error = none ∧
    (e.update (.fileOpen (.ok (p, t)))).1.error = e.error ∧
    (e.update (.fileSaved (.ok p))).1.error = e.error :=
  ⟨rfl, rfl, rfl⟩

/-- Claim C5: `New` clears the path, resets the buffer to the empty
buffer, clears the error, and issues no follow-up task. -/
theorem newFile_spec (e : Editor) :
    (e.update .newFile).1.path = none ∧
    (e.update .newFile).1.content = Content.emptyNew ∧
    (e.update .newFile).1.content.text = "" ∧
    (e.update .newFile).1.error = none ∧
    (e.update .newFile).2 = EditorTask.noTask :=
  ⟨rfl, rfl, rfl, rfl, rfl⟩

/-- Claim C6: a successful `FileSaved(Ok(path))` clears the dirty flag and
stores the resolved save path, leaving the buffer unchanged. -/
theorem fileSaved_ok_spec (e : Editor) (p : String) :
    (e.update (.fileSaved (.ok p))).1.is_dirty = false ∧
    (e.update (.fileSaved (.ok p))).1.path = some p ∧
    (e.update (.fileSaved (.ok p))).1.content = e.content :=
  ⟨rfl, rfl, rfl⟩

/-- Counterexample to claim C7: when the last error is the cancelled
dialog, the status bar does not show an error message — it renders
exactly as it would with no error at all, showing the path. -/
theorem statusBar_dialog_counterexample :
    cancelledDialogEditor.error = some Error.fileDialogClosed ∧
    cancelledDialogEditor.statusBar.status = "a.rs" ∧
    cancelledDialogEditor.statusBar
      = { cancelledDialogEditor with error := none }.statusBar :=
  ⟨rfl, rfl, rfl⟩

/-- Claim C7 as amended: the status bar shows the error message only when
the last error is an I/O failure; otherwise (no error, or a cancelled
dialog) it shows the path when one is set, else the label "new file"; and
it always shows the cursor as 1-indexed line:column. -/
theorem statusBar_spec (e : Editor) (k : Nat) (p : String) :
    (e.error = some (Error.ioError k) → e.statusBar.status = ioErrorMessage k) ∧
    (e.error = some Error.fileDialogClosed ∨ e.error = none →
      (e.path = some p → e.statusBar.status = p) ∧
      (e.path = none → e.statusBar.status = "new file")) ∧
    e.statusBar.position =
      toString (e.content.cursorLine + 1) ++ ":" ++
        toString (e.content.cursorCol + 1) := by
  refine ⟨?_, ?_, rfl⟩
  · intro h
    simp [Editor.statusBar, h]
  · intro h
    refine ⟨?_, ?_⟩ <;> intro hp <;>
      rcases h with h | h <;> simp [Editor.statusBar, h, hp]

/-- Witness for C7 (amended): an I/O error is rendered as its message,
and with no error the path is shown. -/
theorem statusBar_spec_witness :
    ioErrorEditor.statusBar.status = ioErrorMessage 2 ∧
    sampleEditor.statusBar.status = "a.rs" :=
  ⟨(statusBar_spec ioErrorEditor 2 "a.rs").1 rfl,
   ((statusBar_spec sampleEditor 2 "a.rs").2.1 (Or.inr rfl)).1 rfl⟩

/-- Claim C8: `Open` and `Save` leave every state field unchanged and
only issue the corresponding follow-up task — picking a file for `Open`,
saving the current text to the current path for `Save`. -/
theorem open_save_frame_spec (e : Editor) :
    e.update .openFile = (e, EditorTask.pickFileThenLoad) ∧
    e.update .save = (e, EditorTask.saveFile e.path e.content.text) :=
  ⟨rfl, rfl⟩

/-- Claim C9: loading a text via a successful `FileOpen` and then
dispatching `Save` with no intervening edit submits a save task carrying
the loaded path and the byte-identical loaded text. -/
theorem load_save_roundtrip_spec (e : Editor) (p t : String) :
    ((e.update (.fileOpen (.ok (p, t)))).1.update .save).2
      = EditorTask.saveFile (some p) t :=
  rfl

/-- Claim C10: `New` leaves the dirty flag unchanged — a dirty document
stays marked dirty after being discarded, and a clean one stays clean. -/
theorem newFile_dirty_frame_spec (e : Editor) :
    (e.update .newFile).1.is_dirty = e.is_dirty :=
  rfl
